import Mathlib

/-!
Verification of the repository-permission controller of provider-upbound
(`internal/controller/repositorypermission/controller.go`).

The controller implements the crossplane managed-resource contract
(Connect / Observe / Create / Update / Delete) for the `Permission` kind.
The external API client (`internal/client/repositorypermission`), the
kubernetes client and the ProviderConfig usage tracker are external
collaborators; we model their calls as oracles (functions passed in, or
fixed result values), and translate the controller bodies faithfully.
-/

namespace ProviderUpbound

/-- Go errors as seen by this controller: `uperrors` not-found errors,
`errors.New` simple errors, and `errors.Wrap msg cause` wrapped errors. -/
inductive GoErr where
  | notFound : GoErr
  | simple (msg : String) : GoErr
  | wrap (msg : String) (cause : GoErr) : GoErr
deriving DecidableEq, Repr

/-- `uperrors.IsNotFound`: classifies an error as a not-found error. -/
def isNotFound : GoErr → Bool
  | .notFound => true
  | _ => false

/-- `resource.Ignore(is, err)` from crossplane-runtime: returns nil when the
predicate holds of the (non-nil) error, otherwise the error unchanged. -/
def ignore (p : GoErr → Bool) : Option GoErr → Option GoErr
  | none => none
  | some e => if p e then none else some e

/-- `errors.Wrap(err, msg)` from github.com/pkg/errors: returns nil when
`err` is nil, otherwise the error annotated with `msg`. -/
def wrapErr (msg : String) : Option GoErr → Option GoErr
  | none => none
  | some e => some (.wrap msg e)

/-- `pointer.StringDeref(p, def)` from k8s.io/utils/pointer. -/
def stringDeref (p : Option String) (d : String) : String :=
  p.getD d

/-- Error message constants of the controller file. -/
def errNotPermission : String := "managed resource is not a RepositoryPermission custom resource"

def errTrackPCUsage : String := "cannot track ProviderConfig usage"

def errNewClient : String := "cannot create new client"

/-- A status condition (crossplane-runtime `xpv1.Condition`, timestamps
elided). -/
structure Condition where
  ctype : String
  status : String
  reason : String
deriving DecidableEq, Repr

/-- `v1.Available()` from crossplane-runtime: the Ready-type condition with
status True and reason Available. -/
def availableCond : Condition :=
  { ctype := "Ready", status := "True", reason := "Available" }

/-- `Status.SetConditions` of crossplane-runtime (for a single condition):
replaces the existing condition of the same type, or appends. -/
def setCondition (conds : List Condition) (c : Condition) : List Condition :=
  if conds.any (fun c0 => c0.ctype == c.ctype) then
    conds.map (fun c0 => if c0.ctype == c.ctype then c else c0)
  else
    conds ++ [c]

/-- `Spec.ForProvider` of the `Permission` kind, as used by the controller:
`Repository` and `TeamID` are optional (pointer) fields, `OrganizationName`
and `Permission` are plain. -/
structure PermissionParameters where
  organizationName : String
  repository : Option String
  teamID : Option String
  permission : String
deriving DecidableEq, Repr

/-- A `Permission` managed resource: its spec parameters, the
external-name annotation (`meta.GetExternalName` / `meta.SetExternalName`,
unset when absent), and its status conditions. -/
structure Permission where
  forProvider : PermissionParameters
  externalName : Option String
  conditions : List Condition
deriving DecidableEq, Repr

/-- `meta.SetExternalName(cr, name)`: sets the external-name annotation. -/
def setExternalName (cr : Permission) (name : String) : Permission :=
  { cr with externalName := some name }

/-- A `resource.Managed` passed to the controller: either a `Permission`
custom resource, or a managed resource of some other kind (for which the
type assertion `mg.(*v1alpha1.Permission)` fails). -/
inductive Managed where
  | permission (cr : Permission) : Managed
  | otherKind (kind : String) : Managed
deriving DecidableEq, Repr

/-- External name of a managed resource (none for foreign kinds, which the
controller never touches). -/
def externalNameOf : Managed → Option String
  | .permission cr => cr.externalName
  | .otherKind _ => none

/-- `repositorypermission.GetParameters` (also used by Delete). -/
structure GetParameters where
  repository : String
  organization : String
  teamID : String
deriving DecidableEq, Repr

/-- `repositorypermission.CreateParameters`. -/
structure CreateParameters where
  repository : String
  organization : String
  teamID : String
  permission : String
deriving DecidableEq, Repr

/-- `managed.ExternalObservation` (the fields this controller sets). -/
structure ExternalObservation where
  resourceExists : Bool := false
  resourceUpToDate : Bool := false
deriving DecidableEq, Repr

/-- `managed.ExternalCreation`: connection details to publish (this
controller always returns the zero value). -/
structure ExternalCreation where
  connectionDetails : List (String × String) := []
deriving DecidableEq, Repr

/-- `managed.ExternalUpdate`: likewise always the zero value here. -/
structure ExternalUpdate where
  connectionDetails : List (String × String) := []
deriving DecidableEq, Repr

/-- The external API client `repositorypermission.Client`, as an oracle:
each call returns nil (success) or an error. Its implementation
(HTTP transport) is an out-of-scope collaborator. -/
structure Client where
  get : GetParameters → Option GoErr
  create : CreateParameters → Option GoErr
  delete : GetParameters → Option GoErr

/-- The structural-key parameters the controller builds for Get and Delete
from the record spec (nil pointer fields become empty strings). -/
def getParamsOf (cr : Permission) : GetParameters :=
  { repository := stringDeref cr.forProvider.repository ""
    organization := cr.forProvider.organizationName
    teamID := stringDeref cr.forProvider.teamID "" }

/-- The full parameters the controller builds for Create. -/
def createParamsOf (cr : Permission) : CreateParameters :=
  { repository := stringDeref cr.forProvider.repository ""
    organization := cr.forProvider.organizationName
    teamID := stringDeref cr.forProvider.teamID ""
    permission := cr.forProvider.permission }

/-- `external.Observe`: type-assert, call Get with the structural key; on
error return the zero observation with the error wrapped after ignoring
not-found; on success set the Available condition and report
exists/up-to-date. Returns the (possibly mutated) record, the observation
and the error. -/
def Observe (c : Client) (mg : Managed) : Managed × ExternalObservation × Option GoErr :=
  match mg with
  | .otherKind _ => (mg, {}, some (.simple errNotPermission))
  | .permission cr =>
    match c.get (getParamsOf cr) with
    | some e =>
      (mg, {}, wrapErr "failed to get team" (ignore isNotFound (some e)))
    | none =>
      (.permission { cr with conditions := setCondition cr.conditions availableCond },
       { resourceExists := true, resourceUpToDate := true }, none)

/-- `external.Create`: type-assert, call Create with the full parameters;
on error return the wrapped error; on success set the external name to the
dereferenced repository field and return the empty creation. -/
def Create (c : Client) (mg : Managed) : Managed × ExternalCreation × Option GoErr :=
  match mg with
  | .otherKind _ => (mg, {}, some (.simple errNotPermission))
  | .permission cr =>
    match c.create (createParamsOf cr) with
    | some e =>
      (mg, {}, some (.wrap "failed to create repository permission" e))
    | none =>
      (.permission (setExternalName cr (stringDeref cr.forProvider.repository "")), {}, none)

/-- `external.Update`: ignores its arguments and returns the empty update
with nil error. -/
def Update (mg : Managed) : Managed × ExternalUpdate × Option GoErr :=
  (mg, {}, none)

/-- `external.Delete`: type-assert, call Delete with the structural key,
ignore not-found, wrap any remaining error. The record is not mutated. -/
def Delete (c : Client) (mg : Managed) : Managed × Option GoErr :=
  match mg with
  | .otherKind _ => (mg, some (.simple errNotPermission))
  | .permission cr =>
    (mg, wrapErr "cannot delete repositroy permission" (ignore isNotFound (c.delete (getParamsOf cr))))

/-- The steps of `connector.Connect`, in source order. -/
inductive ConnectStep where
  | kindCheck
  | trackUsage
  | resolveConfig
  | buildClient
deriving DecidableEq, Repr

/-- The collaborators `connector.Connect` calls, as oracles: the result of
`usage.Track` and of `upclient.NewConfig`. -/
structure ConnectorEnv where
  trackResult : Option GoErr
  configResult : Option GoErr

/-- `connector.Connect`: type-assert the record, track ProviderConfig
usage, resolve the config, build the external client. Each step only runs
if the previous one succeeded; the first failure returns its own error.
Returns the trace of steps performed and the error (nil means an external
client was returned). -/
def Connect (env : ConnectorEnv) (mg : Managed) : List ConnectStep × Option GoErr :=
  match mg with
  | .otherKind _ => ([.kindCheck], some (.simple errNotPermission))
  | .permission _ =>
    match env.trackResult with
    | some e => ([.kindCheck, .trackUsage], some (.wrap errTrackPCUsage e))
    | none =>
      match env.configResult with
      | some e => ([.kindCheck, .trackUsage, .resolveConfig], some (.wrap errNewClient e))
      | none => ([.kindCheck, .trackUsage, .resolveConfig, .buildClient], none)

/-- Looks up the condition of a given type in a record's status. -/
def getCondition (cr : Permission) (t : String) : Option Condition :=
  cr.conditions.find? (fun c => c.ctype == t)

end ProviderUpbound

namespace ProviderUpbound

/-! ### Helper lemmas and sample inputs -/

theorem find_map_replace (conds : List Condition) (c : Condition)
    (h : conds.any (fun c0 => c0.ctype == c.ctype) = true) :
    (conds.map (fun c0 => if c0.ctype == c.ctype then c else c0)).find?
      (fun c0 => c0.ctype == c.ctype) = some c := by
  induction conds with
  | nil => simp at h
  | cons a t ih =>
    simp only [List.any_cons, Bool.or_eq_true] at h
    simp only [List.map_cons]
    by_cases ha : (a.ctype == c.ctype) = true
    · rw [if_pos ha]
      apply List.find?_cons_of_pos
      simp
    · rw [if_neg ha]
      rw [List.find?_cons_of_neg]
      · exact ih (h.resolve_left ha)
      · exact ha

theorem find_setCondition (conds : List Condition) (c : Condition) :
    (setCondition conds c).find? (fun c0 => c0.ctype == c.ctype) = some c := by
  unfold setCondition
  by_cases h : conds.any (fun c0 => c0.ctype == c.ctype) = true
  · simp only [h, if_true]
    exact find_map_replace conds c h
  · simp only [h, if_false]
    induction conds with
    | nil => simp [List.find?]
    | cons a t ih =>
      simp only [List.any_cons, Bool.or_eq_true, not_or] at h
      have ha : (a.ctype == c.ctype) = false := by
        cases hx : (a.ctype == c.ctype) with
        | false => rfl
        | true => exact absurd hx h.1
      simp only [List.cons_append, List.find?, ha]
      exact ih (by simp [h.2])

/-- A sample record used by witnesses. -/
def crSample : Permission :=
  { forProvider :=
      { organizationName := "acme", repository := some "infra"
        teamID := some "sre", permission := "admin" }
    externalName := none
    conditions := [] }

/-- A sample record whose optional pointer fields are nil. -/
def crNil : Permission :=
  { forProvider :=
      { organizationName := "acme", repository := none
        teamID := none, permission := "admin" }
    externalName := none
    conditions := [] }

/-- A client whose calls all succeed. -/
def clientOK : Client :=
  { get := fun _ => none, create := fun _ => none, delete := fun _ => none }

/-- A client whose calls all fail with not-found. -/
def clientNF : Client :=
  { get := fun _ => some .notFound
    create := fun _ => some .notFound
    delete := fun _ => some .notFound }

/-- A client whose calls all fail with a generic error. -/
def clientBoom : Client :=
  { get := fun _ => some (.simple "boom")
    create := fun _ => some (.simple "boom")
    delete := fun _ => some (.simple "boom") }

end ProviderUpbound

namespace ProviderUpbound

/-- Connector environment where every collaborator call succeeds. -/
def envOK : ConnectorEnv := { trackResult := none, configResult := none }

/-- Connector environment where usage tracking fails. -/
def envTrackFail : ConnectorEnv :=
  { trackResult := some (.simple "t"), configResult := none }

/-- Connector environment where config resolution fails. -/
def envCfgFail : ConnectorEnv :=
  { trackResult := none, configResult := some (.simple "c") }

/-! ### Claims -/

/-- C1: for every Permission record, when the external Get call succeeds,
Observe sets the Available (Ready) status condition on the record and
returns an observation with exists:true and upToDate:true and nil error. -/
theorem observe_success_available (c : Client) (cr : Permission)
    (h : c.get (getParamsOf cr) = none) :
    (Observe c (.permission cr)).2.1 =
      { resourceExists := true, resourceUpToDate := true } ∧
    (Observe c (.permission cr)).2.2 = none ∧
    ∃ cr1, (Observe c (.permission cr)).1 = .permission cr1 ∧
      getCondition cr1 "Ready" = some availableCond := by
  refine ⟨by simp [Observe, h], by simp [Observe, h], ?_⟩
  refine ⟨{ cr with conditions := setCondition cr.conditions availableCond },
    by simp [Observe, h], ?_⟩
  have hf := find_setCondition cr.conditions availableCond
  simpa [getCondition, availableCond] using hf

theorem observe_success_available_witness :
    (Observe clientOK (.permission crSample)).2.1 =
      { resourceExists := true, resourceUpToDate := true } ∧
    (Observe clientOK (.permission crSample)).2.2 = none ∧
    ∃ cr1, (Observe clientOK (.permission crSample)).1 = .permission cr1 ∧
      getCondition cr1 "Ready" = some availableCond :=
  observe_success_available clientOK crSample rfl

/-- C2: for every Permission record whose structural key is not present
remotely (Get fails with NotFound), Observe returns the zero observation
(exists:false) with nil error, leaving the record untouched. -/
theorem observe_notFound_absent (c : Client) (cr : Permission)
    (h : c.get (getParamsOf cr) = some .notFound) :
    Observe c (.permission cr) = (.permission cr, {}, none) := by
  simp [Observe, h, ignore, isNotFound, wrapErr]

theorem observe_notFound_absent_witness :
    Observe clientNF (.permission crSample) = (.permission crSample, {}, none) :=
  observe_notFound_absent clientNF crSample rfl

/-- C3: for every Permission record, Observe returns an error iff Get
fails with a non-NotFound error, and in that case the error is the Get
error wrapped with call-site context. -/
theorem observe_error_iff_nonNotFound (c : Client) (cr : Permission) :
    ((Observe c (.permission cr)).2.2 ≠ none ↔
      ∃ e, c.get (getParamsOf cr) = some e ∧ isNotFound e = false) ∧
    ∀ e, c.get (getParamsOf cr) = some e → isNotFound e = false →
      (Observe c (.permission cr)).2.2 = some (.wrap "failed to get team" e) := by
  constructor
  · cases hg : c.get (getParamsOf cr) with
    | none => simp [Observe, hg]
    | some e =>
      cases he : isNotFound e with
      | true => simp [Observe, hg, ignore, he, wrapErr]
      | false => simp [Observe, hg, ignore, he, wrapErr]
  · intro e hg he
    simp [Observe, hg, ignore, he, wrapErr]

theorem observe_error_iff_nonNotFound_witness :
    (Observe clientBoom (.permission crSample)).2.2 =
      some (.wrap "failed to get team" (.simple "boom")) :=
  (observe_error_iff_nonNotFound clientBoom crSample).2 (.simple "boom") rfl rfl

/-- C4: for every Permission record, a successful Create sets the
external name to the dereferenced repository field and returns the empty
creation with nil error; a failed Create returns the wrapped error and
leaves the record unchanged. -/
theorem create_binds_external_name (c : Client) (cr : Permission) :
    (c.create (createParamsOf cr) = none →
      Create c (.permission cr) =
        (.permission (setExternalName cr (stringDeref cr.forProvider.repository "")),
         {}, none)) ∧
    ∀ e, c.create (createParamsOf cr) = some e →
      Create c (.permission cr) =
        (.permission cr, {}, some (.wrap "failed to create repository permission" e)) := by
  constructor
  · intro h; simp [Create, h]
  · intro e h; simp [Create, h]

theorem create_binds_external_name_witness :
    Create clientOK (.permission crSample) =
      (.permission (setExternalName crSample (stringDeref crSample.forProvider.repository "")),
       {}, none) ∧
    Create clientBoom (.permission crSample) =
      (.permission crSample, {},
       some (.wrap "failed to create repository permission" (.simple "boom"))) :=
  ⟨(create_binds_external_name clientOK crSample).1 rfl,
   (create_binds_external_name clientBoom crSample).2 (.simple "boom") rfl⟩

/-- C5: for every Permission record, Delete returns nil error on success
and on NotFound, a wrapped error on any other failure; and when the remote
object is already absent, calling Delete twice returns nil both times. -/
theorem delete_notFound_ok_idempotent (c : Client) (cr : Permission) :
    ((c.delete (getParamsOf cr) = none ∨ c.delete (getParamsOf cr) = some .notFound) →
      (Delete c (.permission cr)).2 = none) ∧
    (∀ e, c.delete (getParamsOf cr) = some e → isNotFound e = false →
      (Delete c (.permission cr)).2 =
        some (.wrap "cannot delete repositroy permission" e)) ∧
    (c.delete (getParamsOf cr) = some .notFound →
      (Delete c (.permission cr)).2 = none ∧
      (Delete c (Delete c (.permission cr)).1).2 = none) := by
  refine ⟨?_, ?_, ?_⟩
  · rintro (h | h) <;> simp [Delete, h, ignore, isNotFound, wrapErr]
  · intro e h he; simp [Delete, h, ignore, he, wrapErr]
  · intro h
    constructor <;> simp [Delete, h, ignore, isNotFound, wrapErr]

theorem delete_notFound_ok_idempotent_witness :
    ((Delete clientNF (.permission crSample)).2 = none ∧
     (Delete clientNF (Delete clientNF (.permission crSample)).1).2 = none) ∧
    (Delete clientBoom (.permission crSample)).2 =
      some (.wrap "cannot delete repositroy permission" (.simple "boom")) :=
  ⟨(delete_notFound_ok_idempotent clientNF crSample).2.2 rfl,
   (delete_notFound_ok_idempotent clientBoom crSample).2.1 (.simple "boom") rfl rfl⟩

/-- C6: Connect performs kind-check, usage tracking, config resolution and
client construction in that order, each step gated on the previous; the
first failure returns its own error (WrongKind, UsageTrackingFailed,
ConfigResolutionFailed), and a client is returned only when all succeed. -/
theorem connect_step_order (env : ConnectorEnv) (cr : Permission) (k : String) :
    Connect env (.otherKind k) = ([.kindCheck], some (.simple errNotPermission)) ∧
    (∀ e, env.trackResult = some e →
      Connect env (.permission cr) =
        ([.kindCheck, .trackUsage], some (.wrap errTrackPCUsage e))) ∧
    (∀ e, env.trackResult = none → env.configResult = some e →
      Connect env (.permission cr) =
        ([.kindCheck, .trackUsage, .resolveConfig], some (.wrap errNewClient e))) ∧
    (env.trackResult = none → env.configResult = none →
      Connect env (.permission cr) =
        ([.kindCheck, .trackUsage, .resolveConfig, .buildClient], none)) := by
  refine ⟨rfl, ?_, ?_, ?_⟩ <;> intros <;> simp [Connect, *]

theorem connect_step_order_witness :
    Connect envOK (.otherKind "Team") =
      ([.kindCheck], some (.simple errNotPermission)) ∧
    Connect envTrackFail (.permission crSample) =
      ([.kindCheck, .trackUsage], some (.wrap errTrackPCUsage (.simple "t"))) ∧
    Connect envCfgFail (.permission crSample) =
      ([.kindCheck, .trackUsage, .resolveConfig], some (.wrap errNewClient (.simple "c"))) ∧
    Connect envOK (.permission crSample) =
      ([.kindCheck, .trackUsage, .resolveConfig, .buildClient], none) :=
  ⟨(connect_step_order envOK crSample "Team").1,
   (connect_step_order envTrackFail crSample "Team").2.1 (.simple "t") rfl,
   (connect_step_order envCfgFail crSample "Team").2.2.1 (.simple "c") rfl rfl,
   (connect_step_order envOK crSample "Team").2.2.2 rfl rfl⟩

/-- C7: Update is a pure no-op: for every managed resource it returns the
unchanged record, the empty update result and nil error, consulting no
external client. -/
theorem update_noop (mg : Managed) : Update mg = (mg, {}, none) := rfl

/-- C8: no operation silently reassigns the external name: Observe, Update
and Delete leave it unchanged, a failed Create leaves the whole record
unchanged, and only a successful Create writes it, to the record's current
(dereferenced) repository identifier. -/
theorem external_name_only_set_by_create (c : Client) (mg : Managed) :
    externalNameOf (Observe c mg).1 = externalNameOf mg ∧
    externalNameOf (Update mg).1 = externalNameOf mg ∧
    externalNameOf (Delete c mg).1 = externalNameOf mg ∧
    ((Create c mg).2.2 ≠ none → (Create c mg).1 = mg) ∧
    (∀ cr, mg = .permission cr → (Create c mg).2.2 = none →
      externalNameOf (Create c mg).1 =
        some (stringDeref cr.forProvider.repository "")) := by
  cases mg with
  | otherKind k =>
    refine ⟨rfl, rfl, rfl, fun _ => rfl, ?_⟩
    intro cr hcr
    exact absurd hcr (by simp)
  | permission cr =>
    refine ⟨?_, rfl, rfl, ?_, ?_⟩
    · cases hg : c.get (getParamsOf cr) <;> simp [Observe, hg, externalNameOf]
    · intro hne
      cases hc : c.create (createParamsOf cr) with
      | none => exact absurd (by simp [Create, hc]) hne
      | some e => simp [Create, hc]
    · intro cr' hcr hnone
      injection hcr with hcr'
      subst hcr'
      cases hc : c.create (createParamsOf cr) with
      | none => simp [Create, hc, externalNameOf, setExternalName]
      | some e => simp [Create, hc] at hnone

theorem external_name_only_set_by_create_witness :
    (Create clientBoom (.permission crSample)).1 = .permission crSample ∧
    externalNameOf (Create clientOK (.permission crSample)).1 =
      some (stringDeref crSample.forProvider.repository "") :=
  ⟨(external_name_only_set_by_create clientBoom (.permission crSample)).2.2.2.1
      (by decide),
   (external_name_only_set_by_create clientOK (.permission crSample)).2.2.2.2
      crSample rfl rfl⟩

/-- C9: Observe, Create and Delete each reject a managed resource of the
wrong kind with the same wrong-kind error and a zero-valued result, and
the outcome is independent of the external client (no API call is made)
and leaves the record unchanged. -/
theorem wrong_kind_rejected (c c' : Client) (k : String) :
    Observe c (.otherKind k) = (.otherKind k, {}, some (.simple errNotPermission)) ∧
    Create c (.otherKind k) = (.otherKind k, {}, some (.simple errNotPermission)) ∧
    Delete c (.otherKind k) = (.otherKind k, some (.simple errNotPermission)) ∧
    Observe c (.otherKind k) = Observe c' (.otherKind k) ∧
    Create c (.otherKind k) = Create c' (.otherKind k) ∧
    Delete c (.otherKind k) = Delete c' (.otherKind k) :=
  ⟨rfl, rfl, rfl, rfl, rfl, rfl⟩

/-- C10: for a Permission record whose optional Repository and TeamID
pointer fields are nil, the structural keys built for Get/Delete and the
Create parameters substitute the empty string, and a successful Create
sets the external name to the empty string. -/
theorem nil_pointer_fields_default_empty (c : Client) (cr : Permission)
    (hr : cr.forProvider.repository = none) (ht : cr.forProvider.teamID = none) :
    getParamsOf cr =
      { repository := "", organization := cr.forProvider.organizationName
        teamID := "" } ∧
    createParamsOf cr =
      { repository := "", organization := cr.forProvider.organizationName
        teamID := "", permission := cr.forProvider.permission } ∧
    ((Create c (.permission cr)).2.2 = none →
      externalNameOf (Create c (.permission cr)).1 = some "") := by
  refine ⟨by simp [getParamsOf, stringDeref, hr, ht],
    by simp [createParamsOf, stringDeref, hr, ht], ?_⟩
  intro h
  cases hc : c.create (createParamsOf cr) with
  | none => simp [Create, hc, externalNameOf, setExternalName, stringDeref, hr]
  | some e => simp [Create, hc] at h

theorem nil_pointer_fields_default_empty_witness :
    getParamsOf crNil =
      { repository := "", organization := crNil.forProvider.organizationName
        teamID := "" } ∧
    createParamsOf crNil =
      { repository := "", organization := crNil.forProvider.organizationName
        teamID := "", permission := crNil.forProvider.permission } ∧
    externalNameOf (Create clientOK (.permission crNil)).1 = some "" :=
  let t := nil_pointer_fields_default_empty clientOK crNil rfl rfl
  ⟨t.1, t.2.1, t.2.2 rfl⟩

end ProviderUpbound
